import Mathlib

/-!
Verification of the es6-promise-debugging detectors.

The repository wraps an external promise implementation to surface four
classes of misuse.  We give a shallow embedding of each detector:

* `src/double-fulfill.js` — the Double-Settlement Detector wraps the
  `resolve`/`reject` pair and reports every settlement call after the
  first while still forwarding it (`dfStep`, `dfRun`).
* `src/timeout.js` — the Timeout Detector schedules an unconditional
  `reject(timeoutError)` at the deadline (`timeoutPromiseRun`).
* `src/domain.js` — the Fault-Isolation Bridge intercepts asynchronous
  faults, rejecting the promise and reporting the error (`domainOnError`).
* `src/uncaught.js` — the Uncaught-Rejection Detector wraps the chaining
  methods of each promise in a chain, keeping per-link state (`Link`) and
  running a per-link deadline check (`deadlineReports`).

Machine state of the external promise collaborator is modelled by
`PState`: a promise is pending, fulfilled with a value, or rejected with
an error, and the first settlement wins (`settle`).
-/

/-- Values and errors flowing through promises.  The source programs use
numbers (`reject(1)`), thrown `Error` objects (modelled as `errCode`) and
the distinguished timeout error. -/
inductive JVal where
  | num (n : Nat)
  | errCode (n : Nat)
  | timeoutErr
deriving DecidableEq, Repr

/-- Settlement state of an external promise: pending, fulfilled with a
value, or rejected with an error.  (Spec section 3, Future handle.) -/
inductive PState where
  | pending
  | fulfilled (v : JVal)
  | rejected (e : JVal)
deriving DecidableEq, Repr

/-- A settlement call made by user code: a call to `resolve` or to
`reject` with a value. -/
inductive SCall where
  | res (v : JVal)
  | rej (e : JVal)
deriving DecidableEq, Repr

/-- The external promise contract: the first settlement call wins, every
later call is a silent no-op.  (Spec section 1, out-of-scope collaborator
contract.) -/
def settle : PState → SCall → PState
  | .pending, .res v => .fulfilled v
  | .pending, .rej e => .rejected e
  | s, _ => s

/-- A settled promise never changes again. -/
theorem settle_of_ne_pending (s : PState) (c : SCall) (h : s ≠ .pending) :
    settle s c = s := by
  cases s with
  | pending => exact absurd rfl h
  | fulfilled v => cases c <;> rfl
  | rejected e => cases c <;> rfl

/-- Replaying any list of settlement calls on a settled promise leaves it
unchanged. -/
theorem foldl_settle_of_ne_pending (cs : List SCall) (s : PState)
    (h : s ≠ .pending) : cs.foldl settle s = s := by
  induction cs with
  | nil => rfl
  | cons c cs ih => simp [List.foldl, settle_of_ne_pending s c h, ih]

/-- A first settlement call on a pending promise settles it. -/
theorem settle_pending_ne_pending (c : SCall) :
    settle PState.pending c ≠ PState.pending := by
  cases c <;> simp [settle]

/-! ## Double-Settlement Detector (src/double-fulfill.js)

`detectDoubleFulfilledPromise` builds the real promise and hands the
construction function wrapped callbacks `wrap(resolve)` / `wrap(reject)`
closing over one shared boolean `fulfilled`.  Each wrapped call first
reports if the flag is already set, then sets the flag, then forwards the
call to the real callback unconditionally.  `DFState` is the state of one
such construction: the shared flag, the underlying promise state, the
number of reports issued so far, and the list of calls forwarded to the
real callbacks. -/

structure DFState where
  fulfilled : Bool
  ps : PState
  reports : Nat
  forwarded : List SCall
deriving DecidableEq, Repr

/-- One call to a wrapped settlement callback (src/double-fulfill.js
lines 7–15): report iff the flag was already set, set the flag, forward
the original call to the real callback (the external promise applies its
first-call-wins rule to the forwarded call). -/
def dfStep (s : DFState) (c : SCall) : DFState :=
  { fulfilled := true
    ps := settle s.ps c
    reports := if s.fulfilled then s.reports + 1 else s.reports
    forwarded := s.forwarded ++ [c] }

/-- State at construction time: flag clear, promise pending, nothing
reported or forwarded. -/
def dfInit : DFState := ⟨false, .pending, 0, []⟩

/-- Running a whole sequence of settlement calls made by the construction
function through the wrapped callbacks. -/
def dfRun (cs : List SCall) : DFState := cs.foldl dfStep dfInit

/-- After the flag is set, every further call adds exactly one report. -/
theorem dfFold_reports_of_fulfilled (cs : List SCall) (s : DFState)
    (h : s.fulfilled = true) :
    (cs.foldl dfStep s).reports = s.reports + cs.length := by
  induction cs generalizing s with
  | nil => rfl
  | cons c cs ih =>
      simp only [List.foldl, List.length_cons]
      rw [ih (dfStep s c) rfl]
      simp [dfStep, h]
      omega

/-- The wrapper forwards every call in order and the underlying promise
evolves exactly as if the raw callbacks had been called. -/
theorem dfFold_forward (cs : List SCall) (s : DFState) :
    (cs.foldl dfStep s).forwarded = s.forwarded ++ cs ∧
    (cs.foldl dfStep s).ps = cs.foldl settle s.ps := by
  induction cs generalizing s with
  | nil => simp
  | cons c cs ih =>
      simp only [List.foldl]
      rcases ih (dfStep s c) with ⟨h1, h2⟩
      constructor
      · rw [h1]; simp [dfStep]
      · rw [h2]; rfl

/-- C4: for every future wrapped by the Double-Settlement Detector,
calling the wrapped settlement callbacks N > 1 times (any mix of
`resolve`/`reject`, any values, here the list `c :: cs` with `cs ≠ []`)
invokes the error-reporting callback exactly N - 1 times, and the
externally observed settlement value is the one passed in the first
call (src/double-fulfill.js lines 3–19). -/
theorem detectDoubleFulfilled_reports_and_first_wins
    (c : SCall) (cs : List SCall) (h : cs ≠ []) :
    (dfRun (c :: cs)).reports = (c :: cs).length - 1 ∧
    (dfRun (c :: cs)).ps = settle .pending c := by
  constructor
  · show (cs.foldl dfStep (dfStep dfInit c)).reports = _
    rw [dfFold_reports_of_fulfilled cs (dfStep dfInit c) rfl]
    simp [dfStep, dfInit]
  · show (cs.foldl dfStep (dfStep dfInit c)).ps = _
    rw [(dfFold_forward cs (dfStep dfInit c)).2]
    exact foldl_settle_of_ne_pending cs _ (settle_pending_ne_pending c)

/-- Witness for C4: two `resolve` calls produce exactly one report and the
promise keeps the first value. -/
theorem detectDoubleFulfilled_reports_and_first_wins_witness :
    ([SCall.res (.num 2)] ≠ ([] : List SCall)) ∧
    ((dfRun [SCall.res (.num 1), SCall.res (.num 2)]).reports = 1 ∧
     (dfRun [SCall.res (.num 1), SCall.res (.num 2)]).ps =
       settle .pending (SCall.res (.num 1))) :=
  ⟨by decide,
   detectDoubleFulfilled_reports_and_first_wins
     (SCall.res (.num 1)) [SCall.res (.num 2)] (by decide)⟩

/-- C8: the Double-Settlement Detector forwards every call, including
every call after the first, with its original value — forwarding is never
suppressed — and the underlying promise evolves exactly as in an
unwrapped run of the same calls: the only extra side effect is the
report counter (src/double-fulfill.js lines 7–15). -/
theorem detectDoubleFulfilled_transparent (cs : List SCall) :
    (dfRun cs).forwarded = cs ∧ (dfRun cs).ps = cs.foldl settle .pending := by
  have h := dfFold_forward cs dfInit
  simpa [dfRun, dfInit] using h

/-! ## Timeout Detector (src/timeout.js)

`timeoutPromise(timeout, construct)` runs the construction function with
the real callbacks and schedules `reject(new Error('timeout error'))` at
the deadline.  We model the construction function by the time-stamped
settlement calls it makes (time-sorted), merge in the detector's timer
event, and let the external promise process all events in time order. -/

/-- The timeout error the detector rejects with. -/
def timeoutError : JVal := .timeoutErr

/-- Merge two time-sorted event lists into one, earlier events first
(ties favour the left list).  This is the scheduler ordering of the
constructor's settlement calls against the detector's timer. -/
def mergeEvents : List (Nat × SCall) → List (Nat × SCall) → List (Nat × SCall)
  | [], ys => ys
  | x :: xs, [] => x :: xs
  | x :: xs, y :: ys =>
      if x.1 ≤ y.1 then x :: mergeEvents xs (y :: ys)
      else y :: mergeEvents (x :: xs) ys
termination_by xs ys => xs.length + ys.length

/-- src/timeout.js lines 3–11: the promise produced by the Timeout
Detector, given deadline `d` and the time-stamped settlement calls the
construction function makes.  The detector contributes the event
`(d, reject timeoutError)`; the promise applies first-call-wins over all
events in time order. -/
def timeoutPromiseRun (d : Nat) (ctorCalls : List (Nat × SCall)) : PState :=
  (mergeEvents ctorCalls [(d, SCall.rej timeoutError)]).foldl
    (fun ps e => settle ps e.2) .pending

/-- If every constructor call is strictly after the deadline, the timer
event comes first. -/
theorem mergeEvents_late (d : Nat) (e : SCall) (cs : List (Nat × SCall))
    (h : ∀ c ∈ cs, d < c.1) :
    mergeEvents cs [(d, e)] = (d, e) :: cs := by
  cases cs with
  | nil => simp [mergeEvents]
  | cons x xs =>
      have hx : ¬ x.1 ≤ d := by
        have := h x (by simp)
        omega
      simp [mergeEvents, hx]

/-- C5: for every deadline D > 0 and every construction function that has
not settled the future within D time units (all its settlement calls are
strictly after D, or it makes none), the Timeout Detector's future is
rejected with the timeout error at the deadline, and no later settlement
call changes the observed value (src/timeout.js lines 3–11). -/
theorem timeoutPromise_rejects (d : Nat) (ctorCalls : List (Nat × SCall))
    (hd : 0 < d) (h : ∀ c ∈ ctorCalls, d < c.1) :
    timeoutPromiseRun d ctorCalls = PState.rejected timeoutError := by
  unfold timeoutPromiseRun
  rw [mergeEvents_late d _ ctorCalls h]
  show (ctorCalls.foldl (fun ps e => settle ps e.2)
    (settle .pending (SCall.rej timeoutError))) = _
  rw [show ctorCalls.foldl (fun ps e => settle ps e.2)
        (settle .pending (SCall.rej timeoutError)) =
      (ctorCalls.map Prod.snd).foldl settle
        (settle .pending (SCall.rej timeoutError)) from
    (List.foldl_map Prod.snd settle ctorCalls _).symm]
  exact foldl_settle_of_ne_pending _ _ (settle_pending_ne_pending _)

/-- Witness for C5: deadline 1, a single `resolve(5)` at time 2; the
future is rejected with the timeout error. -/
theorem timeoutPromise_rejects_witness :
    0 < 1 ∧ (∀ c ∈ [((2 : Nat), SCall.res (.num 5))], 1 < c.1) ∧
    timeoutPromiseRun 1 [(2, SCall.res (.num 5))] =
      PState.rejected timeoutError :=
  ⟨by decide, by decide,
   timeoutPromise_rejects 1 [(2, SCall.res (.num 5))] (by decide) (by decide)⟩

/-! ## Fault-Isolation Bridge (src/domain.js)

`domainProtectedPromise(construct, errorHandler)` runs the construction
function inside a fresh domain.  The domain's error listener (lines 9–12)
rejects the promise with the intercepted error and then calls the
error-reporting callback with the same error, with no condition on
either. -/

/-- State of one bridged promise: the promise state and the list of
errors handed to the error-reporting callback. -/
structure DomainState where
  ps : PState
  reports : List JVal
deriving DecidableEq, Repr

/-- src/domain.js lines 9–12: the domain's error listener.  It calls
`reject(err)` (a no-op if the promise already settled) and then
`errorHandler(err)`, unconditionally. -/
def domainOnError (s : DomainState) (err : JVal) : DomainState :=
  { ps := settle s.ps (.rej err)
    reports := s.reports ++ [err] }

/-- C6: when the isolation context intercepts an asynchronous fault and
the constructor never called `resolve`/`reject` (promise still pending,
nothing reported), the future becomes rejected with that same error and
the error-reporting callback is invoked exactly once with that same
error; moreover the reporting callback is invoked unconditionally, even
from a state where the promise has already settled and the `reject` call
is a no-op (src/domain.js lines 5–18). -/
theorem domainProtectedPromise_isolated_fault (err : JVal) :
    (domainOnError ⟨.pending, []⟩ err).ps = .rejected err ∧
    (domainOnError ⟨.pending, []⟩ err).reports = [err] ∧
    ∀ s : DomainState, (domainOnError s err).reports = s.reports ++ [err] :=
  ⟨rfl, rfl, fun _ => rfl⟩

/-! ## Uncaught-Rejection Detector (src/uncaught.js)

`detectUncaughtPromise(promise, timeout, prevCaught)` clones the promise
object, overriding `then` and `catch`.  Each wrapper keeps a `chained`
flag (set synchronously by either overridden method), the `prevCaught`
argument it was created with (omitted at the root entry point: modelled
as `none`), and a stack trace captured at wrap time (modelled as a
numeric trace identifier).  A deadline timer per wrapper fires after the
grace period and, reading this state, either does nothing, reports an
uncaught terminal promise with the captured trace, or attaches one
low-level `catch` observer directly on the underlying promise that
reports a fault inside the last handler if the promise is rejected. -/

/-- Outcome of running a user handler: it returns a value normally or
throws an error. -/
inductive HRes where
  | retVal (v : JVal)
  | thrown (e : JVal)
deriving DecidableEq, Repr

/-- A `then`/`catch` handler: a function from the incoming value or error
to an outcome. -/
def Handler := JVal → HRes

/-- The promise produced by running a handler: normal return fulfills,
a throw rejects. -/
def runHandler (h : Handler) (v : JVal) : PState :=
  match h v with
  | .retVal w => .fulfilled w
  | .thrown e => .rejected e

/-- External `promise.then(onResolved, onRejected)` semantics on eventual
states: a pending promise yields a pending promise; a missing handler
passes the settlement through; a present handler's outcome settles the
derived promise. -/
def promiseThen : PState → Option Handler → Option Handler → PState
  | .pending, _, _ => .pending
  | .fulfilled v, some f, _ => runHandler f v
  | .fulfilled v, none, _ => .fulfilled v
  | .rejected e, _, some g => runHandler g e
  | .rejected e, _, none => .rejected e

/-- External `promise.catch(errHandler)` is `then` with only a rejection
handler. -/
def promiseCatch (s : PState) (h : Handler) : PState :=
  promiseThen s none (some h)

/-- Per-chain-link wrapper state of `detectUncaughtPromise`
(src/uncaught.js lines 3–7): the eventual state of the underlying
promise this wrapper delegates to, the `prevCaught` argument (`none`
when the call omitted it), the trace captured at wrap time, and the
`chained` flag as the deadline callback observes it. -/
structure Link where
  ps : PState
  prevCaught : Option Bool
  trace : Nat
  chained : Bool
deriving DecidableEq, Repr

/-- JavaScript truthiness of the `prevCaught` argument: an omitted
argument (`undefined`) and `false` are both falsy. -/
def caughtTruthy : Option Bool → Bool
  | none => false
  | some b => b

/-- Violation reports of the Uncaught-Rejection Detector (src/uncaught.js
lines 28–29 and 32–33). -/
inductive Report where
  | uncaughtTerminal (trace : Nat)
  | handlerFault (e : JVal)
deriving DecidableEq, Repr

/-- Whether the deadline callback attaches the low-level error observer
(the `prevCaught` branch, src/uncaught.js line 31): only when no chaining
occurred and `prevCaught` is truthy.  The observer is attached with the
external `catch` directly on the underlying promise, not through the
wrapper, so no new link is created. -/
def deadlineAttachesObserver (l : Link) : Bool :=
  !l.chained && caughtTruthy l.prevCaught

/-- The deadline timer callback of one link (src/uncaught.js lines
24–36): if chaining occurred, do nothing; otherwise, if `prevCaught` is
falsy, report an uncaught terminal promise with this link's captured
trace; otherwise attach the low-level observer to the underlying
promise, which reports a handler fault exactly when that promise is
(eventually) rejected. -/
def deadlineReports (l : Link) : List Report :=
  if l.chained then []
  else if !caughtTruthy l.prevCaught then [.uncaughtTerminal l.trace]
  else
    match l.ps with
    | .rejected e => [.handlerFault e]
    | _ => []

/-- One chaining call made by user code on a wrapped promise: the
overridden `then` with optional handlers, or the overridden `catch`. -/
inductive ChainOp where
  | thenOp (onResolved : Option Handler) (onRejected : Option Handler)
  | catchOp (errHandler : Handler)

/-- The underlying promise produced by forwarding one chaining call to
the external promise (src/uncaught.js lines 13 and 20). -/
def applyOp (ps : PState) : ChainOp → PState
  | .thenOp f g => promiseThen ps f g
  | .catchOp h => promiseCatch ps h

/-- The `prevCaught` value passed to the wrapper of the derived promise:
`then` passes `onRejected ? true : false` (line 11), `catch` passes
`true` (line 21). -/
def opCaught : ChainOp → Bool
  | .thenOp _ g => g.isSome
  | .catchOp _ => true

/-- Build the links of a chain: the wrapper at depth `tr` over promise
state `ps` with argument `pc`, followed by the wrappers its chaining
calls create.  A link on which a chaining call runs has `chained = true`
when its deadline fires (the flag is set synchronously inside the call,
long before the grace period elapses); the final link stays unchained. -/
def buildChainAux (ps : PState) (pc : Option Bool) (tr : Nat) :
    List ChainOp → List Link
  | [] => [⟨ps, pc, tr, false⟩]
  | op :: ops =>
      ⟨ps, pc, tr, true⟩ ::
        buildChainAux (applyOp ps op) (some (opCaught op)) (tr + 1) ops

/-- The chain built by `createPromise(construct)` followed by the given
chaining calls: the entry point (src/uncaught.js lines 41–44) wraps the
root promise without a `prevCaught` argument, and traces are numbered
from 0 at the root. -/
def buildChain (root : PState) (ops : List ChainOp) : List Link :=
  buildChainAux root none 0 ops

/-- All reports the chain's deadline timers produce after the grace
period, in timer-creation order (every timer uses the same delay and
none is ever cancelled). -/
def chainReports (root : PState) (ops : List ChainOp) : List Report :=
  (buildChain root ops).flatMap deadlineReports

/-- C1: a chain `createPromise(reject e).then(f)` with only a fulfillment
handler produces exactly one report, an uncaught terminal promise whose
trace is the one captured when the terminal link's wrap call was made
(trace 1, assigned inside the `.then` call), not the root's trace 0
(src/uncaught.js lines 9–15 and 24–29). -/
theorem detectUncaught_single_then_uncaught (e : JVal) (f : Handler) :
    chainReports (.rejected e) [.thenOp (some f) none] =
      [.uncaughtTerminal 1] ∧
    (buildChain (.rejected e) [.thenOp (some f) none]).map Link.trace =
      [0, 1] := by
  exact ⟨rfl, rfl⟩

/-- C2: a chain `createPromise(reject e).catch(h)` whose handler throws
`e2` produces exactly one report after the grace period, a handler
fault carrying `e2`, and no uncaught-terminal report; the observer is
attached only on the terminal link, directly on its underlying promise
(src/uncaught.js lines 17–22 and 30–35). -/
theorem detectUncaught_catch_handler_throws (e e2 : JVal) (h : Handler)
    (hh : h e = .thrown e2) :
    chainReports (.rejected e) [.catchOp h] = [.handlerFault e2] ∧
    (buildChain (.rejected e) [.catchOp h]).map deadlineAttachesObserver =
      [false, true] := by
  have hps : promiseCatch (.rejected e) h = .rejected e2 := by
    simp [promiseCatch, promiseThen, runHandler, hh]
  constructor
  · simp [chainReports, buildChain, buildChainAux, applyOp, opCaught, hps,
      deadlineReports, caughtTruthy]
  · simp [buildChain, buildChainAux, deadlineAttachesObserver, opCaught,
      caughtTruthy]

/-- Witness for C2: rejecting with 1 and a handler that throws error
code 7. -/
theorem detectUncaught_catch_handler_throws_witness :
    ((fun _ => HRes.thrown (.errCode 7)) : Handler) (.num 1) =
      .thrown (.errCode 7) ∧
    (chainReports (.rejected (.num 1))
        [.catchOp (fun _ => HRes.thrown (.errCode 7))] =
      [.handlerFault (.errCode 7)] ∧
    (buildChain (.rejected (.num 1))
        [.catchOp (fun _ => HRes.thrown (.errCode 7))]).map
        deadlineAttachesObserver = [false, true]) :=
  ⟨rfl, detectUncaught_catch_handler_throws (.num 1) (.errCode 7)
    (fun _ => HRes.thrown (.errCode 7)) rfl⟩

/-- C3: a chain `createPromise(reject e).catch(h1).catch(h2)` where `h1`
throws and `h2` recovers produces no report of any kind: every
non-terminal link is chained, and the terminal link's observer watches a
fulfilled promise (src/uncaught.js lines 17–22 and 24–36). -/
theorem detectUncaught_double_catch_silent (e e1 v : JVal)
    (h1 h2 : Handler) (hh1 : h1 e = .thrown e1) (hh2 : h2 e1 = .retVal v) :
    chainReports (.rejected e) [.catchOp h1, .catchOp h2] = [] := by
  have hps1 : promiseCatch (.rejected e) h1 = .rejected e1 := by
    simp [promiseCatch, promiseThen, runHandler, hh1]
  have hps2 : promiseCatch (.rejected e1) h2 = .fulfilled v := by
    simp [promiseCatch, promiseThen, runHandler, hh2]
  simp [chainReports, buildChain, buildChainAux, applyOp, opCaught,
    hps1, hps2, deadlineReports, caughtTruthy]

/-- Witness for C3: reject with 1, first handler throws error code 7,
second handler returns 2. -/
theorem detectUncaught_double_catch_silent_witness :
    ((fun _ => HRes.thrown (.errCode 7)) : Handler) (.num 1) =
      .thrown (.errCode 7) ∧
    ((fun _ => HRes.retVal (.num 2)) : Handler) (.errCode 7) =
      .retVal (.num 2) ∧
    chainReports (.rejected (.num 1))
      [.catchOp (fun _ => HRes.thrown (.errCode 7)),
       .catchOp (fun _ => HRes.retVal (.num 2))] = [] :=
  ⟨rfl, rfl,
   detectUncaught_double_catch_silent (.num 1) (.errCode 7) (.num 2)
     (fun _ => HRes.thrown (.errCode 7))
     (fun _ => HRes.retVal (.num 2)) rfl rfl⟩

/-! ### Timing of the chained flag vs. the deadline (single-threaded
scheduler)

All wrapping logic runs synchronously; the deadline callback of a link
runs at `createdAt + delay` on the same thread.  The flag the deadline
callback reads is therefore true exactly when some chaining call on that
link ran strictly before the firing time. -/

/-- The scheduling data of one link's deadline timer: when the link was
created, the grace-period delay passed to `setTimeout`, and the time at
which a chaining call ran on this link, if any. -/
structure LinkTimer where
  createdAt : Nat
  delay : Nat
  registeredAt : Option Nat
deriving DecidableEq, Repr

/-- The instant the deadline callback fires (src/uncaught.js line 36):
`setTimeout` at creation time with the given delay. -/
def LinkTimer.fireAt (t : LinkTimer) : Nat := t.createdAt + t.delay

/-- The value of the `chained` flag the deadline callback observes: the
flag is set synchronously inside the chaining call, so it reads true
exactly when such a call ran strictly before the firing instant
(src/uncaught.js lines 10, 18 and 25). -/
def chainedWhenFired (t : LinkTimer) : Bool :=
  match t.registeredAt with
  | some r => decide (r < t.fireAt)
  | none => false

/-- C9: for every chain link, if a continuation-registration call
(`then` or `catch`) runs on the link strictly before its deadline timer
fires, the deadline callback observes `chained = true` and therefore
performs no report and attaches no observer, whatever the underlying
promise state, `prevCaught` argument and trace are (src/uncaught.js
lines 6–25). -/
theorem detectUncaught_chained_in_time (t : LinkTimer) (r : Nat)
    (ps : PState) (pc : Option Bool) (tr : Nat)
    (hr : t.registeredAt = some r) (hlt : r < t.fireAt) :
    deadlineReports ⟨ps, pc, tr, chainedWhenFired t⟩ = [] ∧
    deadlineAttachesObserver ⟨ps, pc, tr, chainedWhenFired t⟩ = false := by
  have hc : chainedWhenFired t = true := by
    simp [chainedWhenFired, hr, hlt]
  exact ⟨by simp [deadlineReports, hc], by simp [deadlineAttachesObserver, hc]⟩

/-- Witness for C9: a link created at time 0 with delay 5 whose `then`
call ran at time 3. -/
theorem detectUncaught_chained_in_time_witness :
    (LinkTimer.mk 0 5 (some 3)).registeredAt = some 3 ∧
    3 < (LinkTimer.mk 0 5 (some 3)).fireAt ∧
    (deadlineReports ⟨.pending, none, 0,
        chainedWhenFired (LinkTimer.mk 0 5 (some 3))⟩ = [] ∧
     deadlineAttachesObserver ⟨.pending, none, 0,
        chainedWhenFired (LinkTimer.mk 0 5 (some 3))⟩ = false) :=
  ⟨rfl, by decide,
   detectUncaught_chained_in_time (LinkTimer.mk 0 5 (some 3)) 3
     .pending none 0 rfl (by decide)⟩

/-- C10: the entry point (src/uncaught.js lines 41–44) wraps the root
promise passing only `(promise, timeout)`, so `prevCaught` is the
missing value, which the deadline check treats exactly like `false`;
hence a root that is never chained before the deadline yields exactly
one uncaught-terminal report with the root's trace, whatever its
settlement state — the reporting branch never inspects the promise
(src/uncaught.js lines 24–29). -/
theorem createPromise_unchained_always_reports (ps : PState) :
    chainReports ps [] = [.uncaughtTerminal 0] ∧
    deadlineReports ⟨ps, none, 0, false⟩ =
      deadlineReports ⟨ps, some false, 0, false⟩ :=
  ⟨rfl, rfl⟩

/-! ### Wrapping a wrapper (C7)

`detectUncaughtPromise` applied to an already-wrapped promise clones the
wrapper object without calling its `then` or `catch`, so the inner
link's `chained` flag stays false, and the outer call again omits
`prevCaught`.  Each wrap schedules its own independent deadline timer. -/

/-- The link created by one application of
`detectUncaughtPromise(x, timeout)` with no `prevCaught` argument and no
subsequent chaining call on the resulting wrapper. -/
def wrapLink (ps : PState) (tr : Nat) : Link := ⟨ps, none, tr, false⟩

/-- Reports produced when a promise with eventual state `ps` is wrapped
once and never chained. -/
def singleWrapReports (ps : PState) : List Report :=
  deadlineReports (wrapLink ps 0)

/-- Reports produced when the wrap is applied a second time to the
result of the first wrap (same deadline) and the result is never
chained: creating the outer wrapper does not call the inner wrapper's
`then`/`catch` (it only clones the object, src/uncaught.js line 4), so
both links stay unchained and both deadline timers fire. -/
def doubleWrapReports (ps : PState) : List Report :=
  deadlineReports (wrapLink ps 0) ++ deadlineReports (wrapLink ps 1)

/-- Counterexample for C7: for the underlying violation of a rejected,
never-chained promise, the doubly-wrapped future emits two reports while
the singly-wrapped future emits one, so the report totals are not
equal — wrapping is not idempotent. -/
theorem detectUncaught_double_wrap_not_idempotent :
    ¬ (doubleWrapReports (.rejected (.num 1))).length =
      (singleWrapReports (.rejected (.num 1))).length := by
  decide

/-- C7 amended: wrapping an already-wrapped future a second time
duplicates the detection — the outer wrapper adds its own deadline check
and the inner one is not silenced, so a doubly-wrapped never-chained
future produces exactly one report more than the singly-wrapped one
(two uncaught-terminal reports instead of one), whatever the underlying
state. -/
theorem detectUncaught_double_wrap_adds_report (ps : PState) :
    (doubleWrapReports ps).length = (singleWrapReports ps).length + 1 :=
  rfl
